import Mathlib

/-!
# Verification of the QRadar expensive-properties / expensive-rules analyzers

Shallow embedding of the diagnostic classification core of the two analyzer
scripts `qradar_expensive_properties.py` (FieldEvaluator domain, costs in
nanoseconds) and `qradar_expensive_rules.py` (CorrelationRule domain, costs in
milliseconds), together with proofs about the severity classifier, the regex
pattern heuristic analyzer, the recommendation engine and the ranking /
filtering pipeline.

Costs (Python floats) are modelled as rationals.  The rules-domain threshold
constants `0.100`, `0.050`, `0.020` are decimal literals whose products with
`1000` are exact both as IEEE doubles and as rationals (they equal `100`,
`50`, `20`), so the rational model agrees with the float computation at every
comparison the code performs.
-/

namespace QradarSpec

/-! ## A stable insertion sort

`list.sort` in Python is guaranteed stable; any stable sort produces the same
output for the same key order, so we model it by a stable insertion sort. -/

section StableSort

variable {α : Type} (le : α → α → Bool)

/-- Insert `a` into `l` before the first element `b` with `le a b`.  Elements
comparing equal to `a` therefore stay in front of it: stability. -/
def ordInsert (a : α) : List α → List α
  | [] => [a]
  | b :: l => if le a b then a :: b :: l else b :: ordInsert a l

/-- Stable insertion sort with respect to the boolean preorder `le`. -/
def stableSort : List α → List α
  | [] => []
  | a :: l => ordInsert le a (stableSort l)

end StableSort

/-! ## `qradar_expensive_properties.py` — FieldEvaluator domain (costs in ns) -/

namespace ExpensiveProperties

/-- `NS_PER_MS = 1_000_000`. -/
def NS_PER_MS : ℚ := 1000000

/-- `THRESHOLDS["critical"] = 500_000` (ns). -/
def THRESHOLDS_critical : ℚ := 500000

/-- `THRESHOLDS["high"] = 200_000` (ns). -/
def THRESHOLDS_high : ℚ := 200000

/-- `THRESHOLDS["medium"] = 50_000` (ns). -/
def THRESHOLDS_medium : ℚ := 50000

/-- `THRESHOLDS["low"] = 20_000` (ns). -/
def THRESHOLDS_low : ℚ := 20000

/-- `REFERENCE_EPS = 1000`. -/
def REFERENCE_EPS : ℚ := 1000

/-- Number of non-overlapping, left-to-right matches of
`re.findall(r'\.\*\?|\.\+\?', pattern)`: literal `.*?` or `.+?` substrings,
scanning left to right and consuming three characters on a match. -/
def countLazy : List Char → Nat
  | '.' :: '*' :: '?' :: rest => countLazy rest + 1
  | '.' :: '+' :: '?' :: rest => countLazy rest + 1
  | _ :: rest => countLazy rest
  | [] => 0

/-- Number of matches of `re.findall(r'(?<!\[)\.[\*\+](?!\?)', pattern)`:
a literal `.` followed by `*` or `+`, not preceded by `[` and not followed by
`?`.  The boolean argument records whether the previous character was `[`
(the negative lookbehind); a match consumes two characters. -/
def countGreedyAux : Bool → List Char → Nat
  | prevLB, '.' :: c :: rest =>
    if (c = '*' ∨ c = '+') ∧ prevLB = false ∧ rest.head? ≠ some '?' then
      countGreedyAux false rest + 1
    else
      countGreedyAux false (c :: rest)
  | _, c :: rest => countGreedyAux (c == '[') rest
  | _, [] => 0

/-- `re.search(r'\(\?[=!<]', pattern)`: a literal `(?=`, `(?!` or `(?<`
occurs somewhere in the pattern. -/
def hasLookaround : List Char → Bool
  | '(' :: '?' :: c :: rest =>
    if c = '=' ∨ c = '!' ∨ c = '<' then true else hasLookaround ('?' :: c :: rest)
  | _ :: rest => hasLookaround rest
  | [] => false

/-- The two-character sequence `a b` occurs somewhere in the list
(Python `sub in pattern` for a two-character `sub`). -/
def containsSub (a b : Char) : List Char → Bool
  | x :: y :: rest => (x == a && y == b) || containsSub a b (y :: rest)
  | _ => false

/-- `re.search(r'\(.*[\+\*].*\)[\+\*\?]', pattern)`: there are positions
`i < j < k` holding `(`, a quantifier (`+`/`*`), and `)` immediately followed
by `+`, `*` or `?`, with no newline strictly between `i` and `k` (Python `.`
does not match `\n`).  Existence of indices is equivalent to `re.search`
finding a match. -/
def hasCatastrophic (s : List Char) : Bool :=
  let n := s.length
  (List.range n).any fun i =>
    (List.range n).any fun j =>
      (List.range n).any fun k =>
        decide (i < j) && decide (j < k) &&
        (s.getD i ' ' == '(') &&
        (s.getD j ' ' == '+' || s.getD j ' ' == '*') &&
        (s.getD k ' ' == ')') &&
        decide (k + 1 < n) &&
        (s.getD (k + 1) ' ' == '+' || s.getD (k + 1) ' ' == '*' || s.getD (k + 1) ' ' == '?') &&
        ((List.range n).all fun m => !(decide (i < m) && decide (m < k)) || (s.getD m ' ' != '\n'))

/-- Issue emitted by the pattern analyzer: `(severity level, message)`. -/
def Issue : Type := String × String

instance : DecidableEq Issue := instDecidableEqProd

/-- Catastrophic-backtracking detection rule of `analyze_regex`. -/
def catastrophicRule (s : List Char) : List Issue :=
  if hasCatastrophic s then
    [("CRÍTICO", "Posible backtracking catastrófico: cuantificadores anidados como `(.*+)+` o `(.+)*`. Puede causar timeout completo del parser.")]
  else []

/-- Message of the `lazy_count >= 2` issue, with the count interpolated. -/
def lazyHighMsg (n : Nat) : String :=
  "Múltiples lazy quantifiers (`.*?` o `.+?`): " ++ toString n ++ " encontrados. Cada uno fuerza backtracking adicional. Usar clases de caracteres negadas `[^delimitador]+` en su lugar."

/-- Message of the `lazy_count == 1` issue. -/
def lazyMedMsg : String :=
  "Lazy quantifier (`.*?` o `.+?`) detectado. Considerar reemplazar con clase negada `[^delimitador]+` para mejor rendimiento."

/-- Lazy-quantifier detection rule of `analyze_regex`. -/
def lazyRule (s : List Char) : List Issue :=
  let lazy_count := countLazy s
  if 2 ≤ lazy_count then [("ALTO", lazyHighMsg lazy_count)]
  else if lazy_count = 1 then [("MEDIO", lazyMedMsg)]
  else []

/-- Unbounded-greedy-quantifier detection rule of `analyze_regex`. -/
def greedyRule (s : List Char) : List Issue :=
  let greedy_count := countGreedyAux false s
  if 3 ≤ greedy_count then
    [("ALTO", "Múltiples greedy quantifiers sin límite (`.*` o `.+`): " ++ toString greedy_count ++ " encontrados. Reducir el scope usando anclas o delimitadores específicos.")]
  else if 1 ≤ greedy_count then
    [("BAJO", "`.*` o `.+` sin límite encontrado (" ++ toString greedy_count ++ "x). Considerar acotar con anclas o clases de caracteres más específicas.")]
  else []

/-- Excessive-alternation detection rule of `analyze_regex`. -/
def alternationRule (s : List Char) : List Issue :=
  let pipe_count := s.count '|'
  if 5 ≤ pipe_count then
    [("ALTO", "Alta alternación: " ++ toString pipe_count ++ " opciones con `|`. Evaluar si se puede dividir en múltiples custom properties o usar una clase de caracteres.")]
  else if 2 ≤ pipe_count then
    [("MEDIO", "Alternación con " ++ toString pipe_count ++ " opciones. Ordenar de mayor a menor frecuencia esperada para mejorar rendimiento.")]
  else []

/-- Lookaround detection rule of `analyze_regex`. -/
def lookaroundRule (s : List Char) : List Issue :=
  if hasLookaround s then
    [("MEDIO", "Lookahead o lookbehind detectado. Aunque son válidos, pueden impactar rendimiento en payloads largos. Evaluar si son necesarios.")]
  else []

/-- Excessive-length detection rule of `analyze_regex` (`len(pattern) > 150`). -/
def lengthRule (s : List Char) : List Issue :=
  if 150 < s.length then
    [("BAJO", "Regex larga (" ++ toString s.length ++ " caracteres). Dividir en múltiples propiedades más específicas puede mejorar el rendimiento y la mantenibilidad.")]
  else []

/-- Message of the missing-anchors issue. -/
def anchorsMsg : String :=
  "Sin anclas `^` o `$`. Agregar anclas cuando sea posible para reducir el espacio de búsqueda del motor regex."

/-- Missing-anchors detection rule of `analyze_regex`: no `^` start anchor,
no `$` end anchor and no `\A`/`\Z` markers anywhere. -/
def anchorsRule (s : List Char) : List Issue :=
  if s.head? ≠ some '^' ∧ s.getLast? ≠ some '$' ∧
      containsSub '\\' 'A' s = false ∧ containsSub '\\' 'Z' s = false then
    [("INFO", anchorsMsg)]
  else []

/-- `analyze_regex(pattern)`: empty pattern yields no issues; otherwise the
seven detection rules fire independently, in source order. -/
def analyze_regex (pattern : String) : List Issue :=
  if pattern = "" then []
  else
    catastrophicRule pattern.data ++ lazyRule pattern.data ++ greedyRule pattern.data ++
    alternationRule pattern.data ++ lookaroundRule pattern.data ++
    lengthRule pattern.data ++ anchorsRule pattern.data

/-- `classify_severity(avg_ns)`: four upward-inclusive severity bands,
returning `(label, color, icon)`. -/
def classify_severity (avg_ns : ℚ) : String × String × String :=
  if THRESHOLDS_critical ≤ avg_ns then ("CRÍTICO", "#dc2626", "🔴")
  else if THRESHOLDS_high ≤ avg_ns then ("ALTO", "#ea580c", "🟠")
  else if THRESHOLDS_medium ≤ avg_ns then ("MEDIO", "#ca8a04", "🟡")
  else ("BAJO", "#16a34a", "🟢")

/-- One parsed row of the `.tabular` file (the fields `parse_tabular` builds
that the core logic reads; derived `*_ms` fields are recomputed where used). -/
structure PropRec where
  name : String
  mbean : String
  pattern : String
  times_called : Nat
  cancelled : Nat
  avg_ns : ℚ
  max_ns : ℚ
  min_ns : ℚ
  source_file : String
deriving DecidableEq

/-- Result of `get_recommendation`. -/
structure Recommendation where
  action : String
  priority : Nat
  details : List String
  regex_issues : List Issue
deriving DecidableEq

/-- Icon map used when appending regex issues to the recommendation details. -/
def issueIcon (level : String) : String :=
  if level = "CRÍTICO" then "🔴"
  else if level = "ALTO" then "🟠"
  else if level = "MEDIO" then "🟡"
  else if level = "BAJO" then "🔵"
  else if level = "INFO" then "ℹ️"
  else "•"

/-- `get_recommendation(prop)`: ordered primary-action chain, then the
supplementary findings, the default finding when nothing was appended, and
the final `MONITOREAR → REVISAR` escalation.  Number formatting of the float
interpolations (`:.3f`, `:,`) is abstracted to plain rational rendering. -/
def get_recommendation (prop : PropRec) : Recommendation :=
  let avg_ns := prop.avg_ns
  let max_ns := prop.max_ns
  let times_called := prop.times_called
  let cancelled := prop.cancelled
  let avg_ms := avg_ns / NS_PER_MS
  let regex_issues := analyze_regex prop.pattern
  let base : String × Nat × List String :=
    if 0 < cancelled then
      let pct_cancel := (cancelled : ℚ) / max (times_called : ℚ) 1 * 100
      ("DESHABILITAR", 1,
        ["⛔ <strong>" ++ toString cancelled ++ " cancelaciones</strong> (" ++ toString pct_cancel ++ "% de ejecuciones). El motor regex está haciendo timeout en esta propiedad — está causando que eventos sean <strong>enrutados directamente a storage sin pasar por el CRE</strong>. Deshabilitar inmediatamente hasta reescribir la regex."])
    else if THRESHOLDS_critical ≤ avg_ns ∧ 1000 < times_called then
      let cpu_per_sec := avg_ns * REFERENCE_EPS / 1000000000
      ("REESCRIBIR", 1,
        ["Con " ++ toString avg_ms ++ "ms promedio y " ++ toString times_called ++ " llamadas, esta propiedad consume ~" ++ toString cpu_per_sec ++ "s de CPU por segundo a " ++ toString REFERENCE_EPS ++ " EPS. Reescribir la regex con patrones más eficientes."])
    else if THRESHOLDS_critical ≤ avg_ns ∧ times_called < 100 then
      ("REVISAR", 2,
        ["Alto costo por evaluación (" ++ toString avg_ms ++ "ms) pero pocas llamadas (" ++ toString times_called ++ "). Si el volumen de eventos que coincide aumenta, el impacto será significativo. Acotar el scope de log sources o categorías donde aplica."])
    else if THRESHOLDS_high ≤ avg_ns then
      ("OPTIMIZAR", 2,
        ["Tiempo de evaluación elevado (" ++ toString avg_ms ++ "ms promedio). Revisar el patrón regex y aplicar las optimizaciones indicadas abajo."])
    else
      ("MONITOREAR", 4, [])
  let variance_ratio := max_ns / max avg_ns 1
  let recs1 := base.2.2 ++
    (if 20 < variance_ratio ∧ THRESHOLDS_high < max_ns then
      ["Pico máximo de " ++ toString (max_ns / NS_PER_MS) ++ "ms vs promedio de " ++ toString avg_ms ++ "ms (ratio " ++ toString variance_ratio ++ "x). Comportamiento inestable ante ciertos payloads — probablemente backtracking catastrófico en eventos específicos."]
    else [])
  let recs2 := recs1 ++ regex_issues.map (fun li =>
    issueIcon li.1 ++ " <em>[Regex/" ++ li.1 ++ "]</em> " ++ li.2)
  let recs3 :=
    if recs2 = [] then
      ["Dentro del rango aceptable. Continuar monitoreando si el sistema experimenta degradación de rendimiento."]
    else recs2
  let action2 := if base.1 = "MONITOREAR" ∧ THRESHOLDS_medium ≤ avg_ns then "REVISAR" else base.1
  let priority2 := if base.1 = "MONITOREAR" ∧ THRESHOLDS_medium ≤ avg_ns then 3 else base.2.1
  { action := action2, priority := priority2, details := recs3, regex_issues := regex_issues }

/-- First component of the sort key of `main`: `-(p["cancelled"] > 0)` gives
`-1` for failure-bearing records and `0` otherwise, so failures sort first.
We use `0`/`1` with the same order. -/
def keyFail (p : PropRec) : Nat := if 0 < p.cancelled then 0 else 1

/-- The composite sort order of `main`: failure-present records first, then
cost descending (`key=lambda p: (-(p["cancelled"] > 0), -p["avg_ns"])`). -/
def rankLe (a b : PropRec) : Prop :=
  keyFail a < keyFail b ∨ (keyFail a = keyFail b ∧ b.avg_ns ≤ a.avg_ns)

instance (a b : PropRec) : Decidable (rankLe a b) := by
  unfold rankLe; exact inferInstance

/-- Boolean form of `rankLe`, for the executable sort. -/
def rankLeB (a b : PropRec) : Bool := decide (rankLe a b)

/-- The filtering/ranking steps of `main`: keep records at or above the
cost threshold, prepend below-threshold records with cancellations, and
stable-sort by the composite key. -/
def main_filter_sort (all_props : List PropRec) (threshold_ns : ℚ) : List PropRec :=
  let filtered := all_props.filter (fun p => decide (threshold_ns ≤ p.avg_ns))
  let cancelledL := all_props.filter
    (fun p => decide (0 < p.cancelled) && !(decide (p ∈ filtered)))
  stableSort rankLeB (cancelledL ++ filtered)

end ExpensiveProperties

/-! ## `qradar_expensive_rules.py` — CorrelationRule domain (costs in ms)

The threshold dictionary is in seconds; every use multiplies by `1000` to
compare against `avg_test_ms`.  The products `0.100 * 1000 = 100`,
`0.050 * 1000 = 50` and `0.020 * 1000 = 20` are exact in IEEE doubles, so the
rational model is exact. -/

namespace ExpensiveRules

/-- `THRESHOLDS["critical"] = 0.100` (s). -/
def THRESHOLDS_critical : ℚ := 0.100

/-- `THRESHOLDS["high"] = 0.050` (s). -/
def THRESHOLDS_high : ℚ := 0.050

/-- `THRESHOLDS["medium"] = 0.020` (s). -/
def THRESHOLDS_medium : ℚ := 0.020

/-- `THRESHOLDS["low"] = 0.010` (s). -/
def THRESHOLDS_low : ℚ := 0.010

/-- One parsed row of the CustomRule TSV (the fields `parse_tsv` builds that
`get_recommendation` and `classify_severity` read). -/
structure RuleRec where
  name : String
  folder : String
  id : String
  avg_test_ms : ℚ
  max_test_ms : ℚ
  alltime_max_ms : ℚ
  fired_count : Nat
  total_test_count : Nat
  capacity_eps : ℚ
deriving DecidableEq

/-- Result of `get_recommendation` in the rules analyzer. -/
structure Recommendation where
  action : String
  priority : Nat
  details : List String
  qradar_url : Option String
deriving DecidableEq

/-- Python `"BB" in s` substring test. -/
def hasBB (s : String) : Bool :=
  ExpensiveProperties.containsSub 'B' 'B' s.data

/-- `get_recommendation(rule)`: primary `if/elif` chain, supplementary
findings (the high-frequency one may upgrade a `MONITOREAR` action), default
finding when nothing was appended, and the final `MONITOREAR → REVISAR`
escalation on `avg_ms > THRESHOLDS["high"] * 1000`.  Number formatting of the
float interpolations is abstracted to plain rational rendering. -/
def get_recommendation (rule : RuleRec) : Recommendation :=
  let avg_ms := rule.avg_test_ms
  let alltime_max_ms := rule.alltime_max_ms
  let fired := rule.fired_count
  let tested := rule.total_test_count
  let cap_eps := rule.capacity_eps
  let base : String × Nat × List String :=
    if THRESHOLDS_critical * 1000 < avg_ms ∧ fired = 0 ∧ 500 < tested then
      ("DESHABILITAR", 1,
        ["Esta regla consume " ++ toString avg_ms ++ "ms promedio evaluándose contra cada evento pero NUNCA ha generado una ofensa (FiredCount=0 en " ++ toString tested ++ " evaluaciones). Es un costo de CPU puro sin valor operacional."])
    else if THRESHOLDS_critical * 1000 < avg_ms ∧ 1000 < tested then
      ("REESCRIBIR", 1,
        ["Tiempo promedio de " ++ toString avg_ms ++ "ms con " ++ toString tested ++ " evaluaciones totales. Tiempo acumulado: " ++ toString (avg_ms * tested / 1000) ++ "s de CPU solo en esta regla. Reescribir anteponiendo condiciones simples (IP, puerto, categoría) antes de condiciones complejas (funciones, acumulaciones, referencias)."])
    else if hasBB rule.name || hasBB rule.folder then
      if THRESHOLDS_medium * 1000 < avg_ms then
        ("OPTIMIZAR BB", 2,
          ["Es un Building Block referenciado por múltiples reglas. Optimizarlo impacta positivamente en TODAS las reglas que lo usan. Revisar condiciones y simplificar la lógica de clasificación."])
      else ("MONITOREAR", 4, [])
    else ("MONITOREAR", 4, [])
  let recs1 := base.2.2 ++
    (if avg_ms * 10 < alltime_max_ms ∧ THRESHOLDS_high * 1000 < alltime_max_ms then
      ["Pico histórico de " ++ toString alltime_max_ms ++ "ms vs promedio de " ++ toString avg_ms ++ "ms (ratio " ++ toString (alltime_max_ms / max avg_ms 0.001) ++ "x). Indica comportamiento inestable ante ciertos eventos — revisar condiciones con expresiones regulares o lookups costosos que se activan esporádicamente."]
    else [])
  let recs2 := recs1 ++
    (if 0 < cap_eps ∧ cap_eps < 500000 then
      ["CapacityEPS=" ++ toString cap_eps ++ " — esta regla limita la capacidad del EP a menos de 500K EPS. Optimizar para aumentar el headroom del procesador."]
    else [])
  let highFreq := 2000 < tested ∧ THRESHOLDS_medium * 1000 < avg_ms
  let action1 := if highFreq ∧ base.1 = "MONITOREAR" then "OPTIMIZAR" else base.1
  let priority1 := if highFreq ∧ base.1 = "MONITOREAR" then 2 else base.2.1
  let recs3 := recs2 ++
    (if highFreq then
      ["Alta frecuencia de evaluación (" ++ toString tested ++ " veces). Agregar condiciones de filtrado más selectivas al inicio de la regla para reducir el número de eventos que llegan a las condiciones costosas."]
    else [])
  let recs4 := recs3 ++
    (if 1000 < fired then
      ["Ha generado " ++ toString fired ++ " ofensas/responses. Si el volumen de alertas es excesivo, evaluar agregar condiciones de supresión o ajustar umbrales."]
    else [])
  let recs5 :=
    if recs4 = [] then
      [if THRESHOLDS_medium * 1000 < avg_ms then
        "Tiempo de evaluación elevado. Revisar condiciones de la regla y asegurarse de que las más selectivas estén primero en la cadena de evaluación."
      else
        "Dentro de rango aceptable. Continuar monitoreando si el sistema experimenta degradación de rendimiento."]
    else recs4
  let action2 := if action1 = "MONITOREAR" ∧ THRESHOLDS_high * 1000 < avg_ms then "REVISAR" else action1
  let priority2 := if action1 = "MONITOREAR" ∧ THRESHOLDS_high * 1000 < avg_ms then 3 else priority1
  { action := action2, priority := priority2, details := recs5,
    qradar_url :=
      if rule.id ≠ "" then
        some ("/console/do/sem/editrule?appName=Sem&pageId=EditRule&ruleId=" ++ rule.id)
      else none }

/-- `classify_severity(avg_ms)`: four upward-inclusive severity bands on
millisecond costs, thresholds `THRESHOLDS[k] * 1000`. -/
def classify_severity (avg_ms : ℚ) : String × String × String :=
  if THRESHOLDS_critical * 1000 ≤ avg_ms then ("CRÍTICO", "#dc2626", "🔴")
  else if THRESHOLDS_high * 1000 ≤ avg_ms then ("ALTO", "#ea580c", "🟠")
  else if THRESHOLDS_medium * 1000 ≤ avg_ms then ("MEDIO", "#ca8a04", "🟡")
  else ("BAJO", "#16a34a", "🟢")

end ExpensiveRules

/-- Ordinal rank of a severity label, `0 = CRÍTICO … 3 = BAJO` (the spec's
band order; any other string maps to `4`). -/
def sevRank (label : String) : Nat :=
  if label = "CRÍTICO" then 0
  else if label = "ALTO" then 1
  else if label = "MEDIO" then 2
  else if label = "BAJO" then 3
  else 4

/-! ## Properties of the stable sort -/

section StableSort

variable {α : Type} (le : α → α → Bool)

theorem perm_ordInsert (a : α) (l : List α) : List.Perm (ordInsert le a l) (a :: l) := by
  induction l with
  | nil => simp [ordInsert]
  | cons b l ih =>
    by_cases h : le a b
    · simp [ordInsert, h]
    · simp only [ordInsert, h, if_false]
      exact (ih.cons b).trans (List.Perm.swap a b l)

theorem perm_stableSort (l : List α) : List.Perm (stableSort le l) l := by
  induction l with
  | nil => simp [stableSort]
  | cons a l ih => exact (perm_ordInsert le a (stableSort le l)).trans (ih.cons a)

theorem mem_ordInsert {x a : α} {l : List α} :
    x ∈ ordInsert le a l ↔ x = a ∨ x ∈ l := by
  rw [(perm_ordInsert le a l).mem_iff]; simp

theorem pairwise_ordInsert
    (htot : ∀ x y, le x y = true ∨ le y x = true)
    (htrans : ∀ x y z, le x y = true → le y z = true → le x z = true)
    (a : α) {l : List α} (hl : l.Pairwise (fun x y => le x y = true)) :
    (ordInsert le a l).Pairwise (fun x y => le x y = true) := by
  induction l with
  | nil => simp [ordInsert]
  | cons b l ih =>
    rcases List.pairwise_cons.1 hl with ⟨hb, hl'⟩
    by_cases h : le a b
    · simp only [ordInsert, h, if_true]
      refine List.pairwise_cons.2 ⟨?_, hl⟩
      intro x hx
      rcases List.mem_cons.1 hx with rfl | hx
      · exact h
      · exact htrans a b x h (hb x hx)
    · simp only [ordInsert, h, if_false]
      refine List.pairwise_cons.2 ⟨?_, ih hl'⟩
      intro x hx
      rcases (mem_ordInsert le).1 hx with rfl | hx
      · rcases htot x b with hxb | hbx
        · exact absurd hxb h
        · exact hbx
      · exact hb x hx

theorem pairwise_stableSort
    (htot : ∀ x y, le x y = true ∨ le y x = true)
    (htrans : ∀ x y z, le x y = true → le y z = true → le x z = true)
    (l : List α) :
    (stableSort le l).Pairwise (fun x y => le x y = true) := by
  induction l with
  | nil => simp [stableSort]
  | cons a l ih => exact pairwise_ordInsert le htot htrans a ih

theorem filter_ordInsert_pos {p : α → Bool} {a : α}
    (hpa : p a = true) (hcls : ∀ b, p b = true → le a b = true) (l : List α) :
    (ordInsert le a l).filter p = a :: l.filter p := by
  induction l with
  | nil => simp [ordInsert, hpa]
  | cons b l ih =>
    by_cases h : le a b
    · simp [ordInsert, h, hpa]
    · have hpb : p b = false := by
        cases hb : p b
        · rfl
        · exact absurd (hcls b hb) h
      simp [ordInsert, h, hpb, ih]

theorem filter_ordInsert_neg {p : α → Bool} {a : α}
    (hpa : p a = false) (l : List α) :
    (ordInsert le a l).filter p = l.filter p := by
  induction l with
  | nil => simp [ordInsert, hpa]
  | cons b l ih =>
    by_cases h : le a b
    · simp [ordInsert, h, hpa]
    · cases hb : p b <;> simp [ordInsert, h, hpa, hb, ih]

/-- A stable sort does not change the relative order of elements of one key
class: filtering by a class of mutually `le`-equivalent elements yields the
original input order. -/
theorem filter_stableSort {p : α → Bool}
    (hcls : ∀ x y, p x = true → p y = true → le x y = true) (l : List α) :
    (stableSort le l).filter p = l.filter p := by
  induction l with
  | nil => simp [stableSort]
  | cons a l ih =>
    cases hpa : p a
    · simp only [stableSort]
      rw [filter_ordInsert_neg le hpa, ih]
      simp [hpa]
    · simp only [stableSort]
      rw [filter_ordInsert_pos le hpa (fun b hb => hcls a b hpa hb), ih]
      simp [hpa]

end StableSort

/-! ## Claims -/

/-- Band characterization of the FieldEvaluator classifier (helper). -/
theorem classify_ns_bands (c : ℚ) :
    ((ExpensiveProperties.classify_severity c).1 = "CRÍTICO" ∨
      (ExpensiveProperties.classify_severity c).1 = "ALTO" ∨
      (ExpensiveProperties.classify_severity c).1 = "MEDIO" ∨
      (ExpensiveProperties.classify_severity c).1 = "BAJO")
  ∧ ((ExpensiveProperties.classify_severity c).1 = "CRÍTICO" ↔ 500000 ≤ c)
  ∧ ((ExpensiveProperties.classify_severity c).1 = "ALTO" ↔ 200000 ≤ c ∧ c < 500000)
  ∧ ((ExpensiveProperties.classify_severity c).1 = "MEDIO" ↔ 50000 ≤ c ∧ c < 200000)
  ∧ ((ExpensiveProperties.classify_severity c).1 = "BAJO" ↔ c < 50000) := by
  unfold ExpensiveProperties.classify_severity ExpensiveProperties.THRESHOLDS_critical
    ExpensiveProperties.THRESHOLDS_high ExpensiveProperties.THRESHOLDS_medium
  split_ifs with h1 h2 h3 <;>
    refine ⟨by simp, ?_, ?_, ?_, ?_⟩ <;> simp_all <;>
    first
    | linarith
    | (intro h0; linarith)

/-- Band characterization of the CorrelationRule classifier (helper). -/
theorem classify_ms_bands (c : ℚ) :
    ((ExpensiveRules.classify_severity c).1 = "CRÍTICO" ∨
      (ExpensiveRules.classify_severity c).1 = "ALTO" ∨
      (ExpensiveRules.classify_severity c).1 = "MEDIO" ∨
      (ExpensiveRules.classify_severity c).1 = "BAJO")
  ∧ ((ExpensiveRules.classify_severity c).1 = "CRÍTICO" ↔ 100 ≤ c)
  ∧ ((ExpensiveRules.classify_severity c).1 = "ALTO" ↔ 50 ≤ c ∧ c < 100)
  ∧ ((ExpensiveRules.classify_severity c).1 = "MEDIO" ↔ 20 ≤ c ∧ c < 50)
  ∧ ((ExpensiveRules.classify_severity c).1 = "BAJO" ↔ c < 20) := by
  unfold ExpensiveRules.classify_severity ExpensiveRules.THRESHOLDS_critical
    ExpensiveRules.THRESHOLDS_high ExpensiveRules.THRESHOLDS_medium
  split_ifs with h1 h2 h3 <;>
    refine ⟨by simp, ?_, ?_, ?_, ?_⟩ <;> simp_all <;>
    first
    | linarith
    | (intro h0; linarith)
    | (constructor <;> linarith)

/-- C1: for every non-negative cost `c`, each domain's `classify_severity`
returns exactly one of the four labels, assigned by upward-inclusive bands at
the default thresholds (FieldEvaluator: 500000/200000/50000 ns;
CorrelationRule: 100/50/20 ms, i.e. `THRESHOLDS[k] * 1000`), a cost equal to
a threshold landing in the higher band, and the classifier total. -/
theorem C1_classify_bands (c : ℚ) (hc : 0 ≤ c) :
    (((ExpensiveProperties.classify_severity c).1 = "CRÍTICO" ∨
        (ExpensiveProperties.classify_severity c).1 = "ALTO" ∨
        (ExpensiveProperties.classify_severity c).1 = "MEDIO" ∨
        (ExpensiveProperties.classify_severity c).1 = "BAJO")
      ∧ ((ExpensiveProperties.classify_severity c).1 = "CRÍTICO" ↔ 500000 ≤ c)
      ∧ ((ExpensiveProperties.classify_severity c).1 = "ALTO" ↔ 200000 ≤ c ∧ c < 500000)
      ∧ ((ExpensiveProperties.classify_severity c).1 = "MEDIO" ↔ 50000 ≤ c ∧ c < 200000)
      ∧ ((ExpensiveProperties.classify_severity c).1 = "BAJO" ↔ c < 50000))
  ∧ (((ExpensiveRules.classify_severity c).1 = "CRÍTICO" ∨
        (ExpensiveRules.classify_severity c).1 = "ALTO" ∨
        (ExpensiveRules.classify_severity c).1 = "MEDIO" ∨
        (ExpensiveRules.classify_severity c).1 = "BAJO")
      ∧ ((ExpensiveRules.classify_severity c).1 = "CRÍTICO" ↔ 100 ≤ c)
      ∧ ((ExpensiveRules.classify_severity c).1 = "ALTO" ↔ 50 ≤ c ∧ c < 100)
      ∧ ((ExpensiveRules.classify_severity c).1 = "MEDIO" ↔ 20 ≤ c ∧ c < 50)
      ∧ ((ExpensiveRules.classify_severity c).1 = "BAJO" ↔ c < 20)) :=
  ⟨classify_ns_bands c, classify_ms_bands c⟩

/-- Witness for C1 at the boundary cost `c = 200000` ns / `= 50` ms: the
boundary belongs to the higher band in both domains. -/
theorem C1_classify_bands_witness :
    (ExpensiveProperties.classify_severity 200000).1 = "ALTO" ∧
    (ExpensiveRules.classify_severity 50).1 = "ALTO" :=
  ⟨(C1_classify_bands 200000 (by norm_num)).1.2.2.1.2 ⟨by norm_num, by norm_num⟩,
   (C1_classify_bands 50 (by norm_num)).2.2.2.1.2 ⟨by norm_num, by norm_num⟩⟩

/-- C10: the severity classifier is monotone in cost within each domain:
larger cost never gets a strictly less severe band (smaller `sevRank` is more
severe). -/
theorem C10_classify_monotone (c1 c2 : ℚ) (h0 : 0 ≤ c1) (h12 : c1 ≤ c2) :
    sevRank (ExpensiveProperties.classify_severity c2).1 ≤
      sevRank (ExpensiveProperties.classify_severity c1).1 ∧
    sevRank (ExpensiveRules.classify_severity c2).1 ≤
      sevRank (ExpensiveRules.classify_severity c1).1 := by
  constructor
  · unfold ExpensiveProperties.classify_severity ExpensiveProperties.THRESHOLDS_critical
      ExpensiveProperties.THRESHOLDS_high ExpensiveProperties.THRESHOLDS_medium
    split_ifs <;> simp [sevRank] <;> linarith
  · unfold ExpensiveRules.classify_severity ExpensiveRules.THRESHOLDS_critical
      ExpensiveRules.THRESHOLDS_high ExpensiveRules.THRESHOLDS_medium
    split_ifs <;> simp [sevRank] <;> linarith

/-- Witness for C10 at `c1 = 100000`, `c2 = 600000` (ns) resp. ms. -/
theorem C10_classify_monotone_witness :
    sevRank (ExpensiveProperties.classify_severity 600000).1 ≤
      sevRank (ExpensiveProperties.classify_severity 100000).1 ∧
    sevRank (ExpensiveRules.classify_severity 600000).1 ≤
      sevRank (ExpensiveRules.classify_severity 100000).1 :=
  C10_classify_monotone 100000 600000 (by norm_num) (by norm_num)

/-- C2: any FieldEvaluator record with a failure/cancellation signal
(`cancelled > 0`) gets action `DESHABILITAR` with priority 1, regardless of
its cost or severity band. -/
theorem C2_failure_disables (p : ExpensiveProperties.PropRec) (h : 0 < p.cancelled) :
    (ExpensiveProperties.get_recommendation p).action = "DESHABILITAR" ∧
    (ExpensiveProperties.get_recommendation p).priority = 1 := by
  have hne : ("DESHABILITAR" : String) ≠ "MONITOREAR" := by decide
  unfold ExpensiveProperties.get_recommendation
  simp [if_pos h, hne]

/-- Witness for C2 at the record of the claim: `failure_count = 5`,
`call_count = 100`, `average_cost = 10000` ns (below even the LOW band). -/
theorem C2_failure_disables_witness :
    (ExpensiveProperties.get_recommendation
      { name := "prop", mbean := "", pattern := "", times_called := 100,
        cancelled := 5, avg_ns := 10000, max_ns := 0, min_ns := 0,
        source_file := "" }).action = "DESHABILITAR" ∧
    (ExpensiveProperties.get_recommendation
      { name := "prop", mbean := "", pattern := "", times_called := 100,
        cancelled := 5, avg_ns := 10000, max_ns := 0, min_ns := 0,
        source_file := "" }).priority = 1 :=
  C2_failure_disables _ (by norm_num)

/-- The default-finding fallback leaves a non-empty list (helper). -/
theorem ite_default_ne_nil {α : Type} [DecidableEq α] (l : List α) (d : α) :
    (if l = [] then [d] else l) ≠ [] := by
  split_ifs with h
  · simp
  · exact h

/-- C9: in both domains `get_recommendation` never returns an empty findings
list — when no rule appended a finding, a single default finding is used. -/
theorem C9_details_nonempty (p : ExpensiveProperties.PropRec) (r : ExpensiveRules.RuleRec) :
    (ExpensiveProperties.get_recommendation p).details ≠ [] ∧
    (ExpensiveRules.get_recommendation r).details ≠ [] := by
  constructor
  · unfold ExpensiveProperties.get_recommendation
    exact ite_default_ne_nil _ _
  · unfold ExpensiveRules.get_recommendation
    exact ite_default_ne_nil _ _

/-- C7 counterexample: on the literal pattern `"(a*)+"` the missing-anchors
rule (the only source of `INFO`-level issues) also fires, and the
unbounded-greedy rule does not (its regex requires a literal dot), so it is
not true that only the catastrophic-backtracking rule (plus possibly the
greedy rule) fires. -/
theorem C7_other_rule_fires :
    ("INFO", ExpensiveProperties.anchorsMsg) ∈ ExpensiveProperties.analyze_regex "(a*)+" ∧
    ExpensiveProperties.countGreedyAux false "(a*)+".data = 0 := by
  decide

/-- C7 amended: on `"(a*)+"` the analyzer returns exactly the CRITICAL
catastrophic-backtracking issue followed by the missing-anchors INFO issue;
no other rule (in particular not the greedy-quantifier rule) fires. -/
theorem C7_catastrophic_amended :
    ExpensiveProperties.analyze_regex "(a*)+" =
      [("CRÍTICO", "Posible backtracking catastrófico: cuantificadores anidados como `(.*+)+` o `(.+)*`. Puede causar timeout completo del parser."),
       ("INFO", ExpensiveProperties.anchorsMsg)] := by
  decide

set_option maxRecDepth 8000 in
/-- C8: for every non-empty pattern the analyzer's lazy-quantifier rule emits
at most one issue, determined by the number `n` of `.*?`/`.+?` matches:
`n ≥ 2` gives one HIGH issue with the count in the message, `n = 1` one
MEDIUM issue, `n = 0` none; the lazy bracket sits verbatim inside
`analyze_regex`'s output; and on `".*?campo=.*?valor"` the full output is the
single HIGH lazy issue with count 2 plus the (unrelated) missing-anchors INFO
issue — in particular exactly one HIGH issue is emitted. -/
theorem C8_lazy_quantifiers (pattern : String) (hp : pattern ≠ "") :
    (ExpensiveProperties.analyze_regex pattern =
      ExpensiveProperties.catastrophicRule pattern.data ++
      ExpensiveProperties.lazyRule pattern.data ++
      ExpensiveProperties.greedyRule pattern.data ++
      ExpensiveProperties.alternationRule pattern.data ++
      ExpensiveProperties.lookaroundRule pattern.data ++
      ExpensiveProperties.lengthRule pattern.data ++
      ExpensiveProperties.anchorsRule pattern.data)
  ∧ (2 ≤ ExpensiveProperties.countLazy pattern.data →
      ExpensiveProperties.lazyRule pattern.data =
        [("ALTO", ExpensiveProperties.lazyHighMsg (ExpensiveProperties.countLazy pattern.data))])
  ∧ (ExpensiveProperties.countLazy pattern.data = 1 →
      ExpensiveProperties.lazyRule pattern.data = [("MEDIO", ExpensiveProperties.lazyMedMsg)])
  ∧ (ExpensiveProperties.countLazy pattern.data = 0 →
      ExpensiveProperties.lazyRule pattern.data = [])
  ∧ (ExpensiveProperties.lazyRule pattern.data).length ≤ 1
  ∧ ExpensiveProperties.countLazy ".*?campo=.*?valor".data = 2
  ∧ ExpensiveProperties.analyze_regex ".*?campo=.*?valor" =
      [("ALTO", ExpensiveProperties.lazyHighMsg 2), ("INFO", ExpensiveProperties.anchorsMsg)] := by
  refine ⟨?_, ?_, ?_, ?_, ?_, by decide, by decide⟩
  · simp [ExpensiveProperties.analyze_regex, hp]
  · intro h2
    simp [ExpensiveProperties.lazyRule, h2]
  · intro h1
    simp [ExpensiveProperties.lazyRule, h1]
  · intro h0
    simp [ExpensiveProperties.lazyRule, h0]
  · simp only [ExpensiveProperties.lazyRule]
    split_ifs <;> simp

set_option maxRecDepth 8000 in
/-- Witness for C8 at the claim's pattern. -/
theorem C8_lazy_quantifiers_witness :
    ExpensiveProperties.lazyRule ".*?campo=.*?valor".data =
      [("ALTO", ExpensiveProperties.lazyHighMsg 2)] := by
  have h2 : ExpensiveProperties.countLazy ".*?campo=.*?valor".data = 2 := by decide
  have h := (C8_lazy_quantifiers ".*?campo=.*?valor" (by decide)).2.1 (by rw [h2])
  rw [h2] at h
  exact h

/-- C3 counterexample: the CorrelationRule record with `avg = 60` ms (HIGH
band, as `classify_severity` confirms), no `BB` marker, `fired = 0`,
`tested = 600` matches no earlier primary rule, yet its action is `REVISAR`
with priority 3 — not `OPTIMIZAR` with priority 2 as the claim states for the
HIGH band in both domains. -/
theorem C3_high_band_counterexample :
    (ExpensiveRules.classify_severity 60).1 = "ALTO" ∧
    (ExpensiveRules.get_recommendation
      { name := "Regla", folder := "", id := "", avg_test_ms := 60,
        max_test_ms := 0, alltime_max_ms := 0, fired_count := 0,
        total_test_count := 600, capacity_eps := 0 }).action = "REVISAR" ∧
    (ExpensiveRules.get_recommendation
      { name := "Regla", folder := "", id := "", avg_test_ms := 60,
        max_test_ms := 0, alltime_max_ms := 0, fired_count := 0,
        total_test_count := 600, capacity_eps := 0 }).priority = 3 := by
  have hbb1 : ExpensiveRules.hasBB "Regla" = false := by decide
  have hbb2 : ExpensiveRules.hasBB "" = false := by decide
  unfold ExpensiveRules.classify_severity ExpensiveRules.get_recommendation
    ExpensiveRules.THRESHOLDS_critical ExpensiveRules.THRESHOLDS_high
    ExpensiveRules.THRESHOLDS_medium
  norm_num [hbb1, hbb2]

/-- C3 amended: a FieldEvaluator HIGH-band record with no failure signal gets
`OPTIMIZAR` priority 2.  A CorrelationRule HIGH-band record gets
`OPTIMIZAR BB` priority 2 when its name or folder contains the `BB` marker;
without the marker it gets `OPTIMIZAR` priority 2 only when
`test_count > 2000` (through the high-frequency supplementary rule), it gets
`REVISAR` priority 3 when `test_count ≤ 2000` and the cost strictly exceeds
50 ms, and it stays `MONITOREAR` priority 4 at exactly 50 ms. -/
theorem C3_high_band_amended :
    (∀ p : ExpensiveProperties.PropRec, p.cancelled = 0 →
      200000 ≤ p.avg_ns → p.avg_ns < 500000 →
      (ExpensiveProperties.get_recommendation p).action = "OPTIMIZAR" ∧
      (ExpensiveProperties.get_recommendation p).priority = 2)
  ∧ (∀ r : ExpensiveRules.RuleRec, 50 ≤ r.avg_test_ms → r.avg_test_ms < 100 →
      (ExpensiveRules.hasBB r.name || ExpensiveRules.hasBB r.folder) = true →
      (ExpensiveRules.get_recommendation r).action = "OPTIMIZAR BB" ∧
      (ExpensiveRules.get_recommendation r).priority = 2)
  ∧ (∀ r : ExpensiveRules.RuleRec, 50 ≤ r.avg_test_ms → r.avg_test_ms < 100 →
      (ExpensiveRules.hasBB r.name || ExpensiveRules.hasBB r.folder) = false →
      2000 < r.total_test_count →
      (ExpensiveRules.get_recommendation r).action = "OPTIMIZAR" ∧
      (ExpensiveRules.get_recommendation r).priority = 2)
  ∧ (∀ r : ExpensiveRules.RuleRec, 50 < r.avg_test_ms → r.avg_test_ms < 100 →
      (ExpensiveRules.hasBB r.name || ExpensiveRules.hasBB r.folder) = false →
      r.total_test_count ≤ 2000 →
      (ExpensiveRules.get_recommendation r).action = "REVISAR" ∧
      (ExpensiveRules.get_recommendation r).priority = 3)
  ∧ (∀ r : ExpensiveRules.RuleRec, r.avg_test_ms = 50 →
      (ExpensiveRules.hasBB r.name || ExpensiveRules.hasBB r.folder) = false →
      r.total_test_count ≤ 2000 →
      (ExpensiveRules.get_recommendation r).action = "MONITOREAR" ∧
      (ExpensiveRules.get_recommendation r).priority = 4) := by
  refine ⟨?_, ?_, ?_, ?_, ?_⟩
  · intro p h0 hge hlt
    have hne : ("OPTIMIZAR" : String) ≠ "MONITOREAR" := by decide
    have hnc : ¬ ((500000 : ℚ) ≤ p.avg_ns) := not_le.2 hlt
    unfold ExpensiveProperties.get_recommendation ExpensiveProperties.THRESHOLDS_critical
      ExpensiveProperties.THRESHOLDS_high ExpensiveProperties.THRESHOLDS_medium
    simp [h0, hnc, hge, hne]
  · intro r hge hlt hbb
    have hne : ("OPTIMIZAR BB" : String) ≠ "MONITOREAR" := by decide
    have hnc : ¬ (ExpensiveRules.THRESHOLDS_critical * 1000 < r.avg_test_ms) := by
      unfold ExpensiveRules.THRESHOLDS_critical; push_neg; norm_num; linarith
    have hmed : ExpensiveRules.THRESHOLDS_medium * 1000 < r.avg_test_ms := by
      unfold ExpensiveRules.THRESHOLDS_medium; norm_num; linarith
    unfold ExpensiveRules.get_recommendation
    simp [hnc, hbb, hmed, hne]
  · intro r hge hlt hbb htc
    have hne : ("OPTIMIZAR" : String) ≠ "MONITOREAR" := by decide
    have hnc : ¬ (ExpensiveRules.THRESHOLDS_critical * 1000 < r.avg_test_ms) := by
      unfold ExpensiveRules.THRESHOLDS_critical; push_neg; norm_num; linarith
    have hmed : ExpensiveRules.THRESHOLDS_medium * 1000 < r.avg_test_ms := by
      unfold ExpensiveRules.THRESHOLDS_medium; norm_num; linarith
    unfold ExpensiveRules.get_recommendation
    simp [hnc, hbb, hmed, hne, htc]
  · intro r hgt hlt hbb htc
    have hnc : ¬ (ExpensiveRules.THRESHOLDS_critical * 1000 < r.avg_test_ms) := by
      unfold ExpensiveRules.THRESHOLDS_critical; push_neg; norm_num; linarith
    have hntc : ¬ (2000 < r.total_test_count) := not_lt.2 htc
    have hhigh : ExpensiveRules.THRESHOLDS_high * 1000 < r.avg_test_ms := by
      unfold ExpensiveRules.THRESHOLDS_high; norm_num; linarith
    unfold ExpensiveRules.get_recommendation
    simp [hnc, hbb, hntc, hhigh]
  · intro r heq hbb htc
    have hnc : ¬ (ExpensiveRules.THRESHOLDS_critical * 1000 < r.avg_test_ms) := by
      unfold ExpensiveRules.THRESHOLDS_critical; push_neg; norm_num; linarith [heq.le]
    have hntc : ¬ (2000 < r.total_test_count) := not_lt.2 htc
    have hnhigh : ¬ (ExpensiveRules.THRESHOLDS_high * 1000 < r.avg_test_ms) := by
      unfold ExpensiveRules.THRESHOLDS_high; push_neg; norm_num; linarith [heq.le]
    unfold ExpensiveRules.get_recommendation
    simp [hnc, hbb, hntc, hnhigh]

/-- Witness for C3 (amended): a FieldEvaluator HIGH-band record, a `BB`
CorrelationRule, a high-frequency one, a plain HIGH one and a 50 ms one. -/
theorem C3_high_band_amended_witness :
    (ExpensiveProperties.get_recommendation
      { name := "p", mbean := "", pattern := "", times_called := 10,
        cancelled := 0, avg_ns := 300000, max_ns := 0, min_ns := 0,
        source_file := "" }).action = "OPTIMIZAR" ∧
    (ExpensiveRules.get_recommendation
      { name := "BB-01", folder := "", id := "", avg_test_ms := 60,
        max_test_ms := 0, alltime_max_ms := 0, fired_count := 0,
        total_test_count := 600, capacity_eps := 0 }).action = "OPTIMIZAR BB" ∧
    (ExpensiveRules.get_recommendation
      { name := "Regla", folder := "", id := "", avg_test_ms := 60,
        max_test_ms := 0, alltime_max_ms := 0, fired_count := 0,
        total_test_count := 2500, capacity_eps := 0 }).action = "OPTIMIZAR" ∧
    (ExpensiveRules.get_recommendation
      { name := "Regla", folder := "", id := "", avg_test_ms := 50,
        max_test_ms := 0, alltime_max_ms := 0, fired_count := 0,
        total_test_count := 600, capacity_eps := 0 }).action = "MONITOREAR" :=
  ⟨(C3_high_band_amended.1 _ rfl (by norm_num) (by norm_num)).1,
   (C3_high_band_amended.2.1 _ (by norm_num) (by norm_num) (by decide)).1,
   (C3_high_band_amended.2.2.1 _ (by norm_num) (by norm_num) (by decide) (by norm_num)).1,
   (C3_high_band_amended.2.2.2.2 _ (by norm_num) (by decide) (by norm_num)).1⟩

/-- C4 counterexample: at `avg = 100` ms exactly — which `classify_severity`
places in the CRITICAL band (`≥` threshold) — with `fired = 0` and
`tested = 600`, the never-fired rule does **not** fire (the code tests the
strict `avg_ms > THRESHOLDS["critical"] * 1000`): the action is `REVISAR`,
not `DESHABILITAR` with priority 1 as the claim states for every
CRITICAL-band record. -/
theorem C4_boundary_counterexample :
    (ExpensiveRules.classify_severity 100).1 = "CRÍTICO" ∧
    (ExpensiveRules.get_recommendation
      { name := "Regla", folder := "", id := "", avg_test_ms := 100,
        max_test_ms := 0, alltime_max_ms := 0, fired_count := 0,
        total_test_count := 600, capacity_eps := 0 }).action = "REVISAR" ∧
    (ExpensiveRules.get_recommendation
      { name := "Regla", folder := "", id := "", avg_test_ms := 100,
        max_test_ms := 0, alltime_max_ms := 0, fired_count := 0,
        total_test_count := 600, capacity_eps := 0 }).action ≠ "DESHABILITAR" := by
  have hbb1 : ExpensiveRules.hasBB "Regla" = false := by decide
  have hbb2 : ExpensiveRules.hasBB "" = false := by decide
  unfold ExpensiveRules.classify_severity ExpensiveRules.get_recommendation
    ExpensiveRules.THRESHOLDS_critical ExpensiveRules.THRESHOLDS_high
    ExpensiveRules.THRESHOLDS_medium
  norm_num [hbb1, hbb2]
  decide

/-- C4 amended: for every CorrelationRule record with average cost strictly
above the CRITICAL threshold (`avg > 100` ms), `fired_count = 0` and
`test_count > 500`, the action is `DESHABILITAR` with priority 1; the rule is
checked before the high-volume rewrite rule, so this holds even when
`test_count > 1000` (the record never gets `REESCRIBIR`). -/
theorem C4_never_fired_amended (r : ExpensiveRules.RuleRec)
    (h1 : 100 < r.avg_test_ms) (h2 : r.fired_count = 0)
    (h3 : 500 < r.total_test_count) :
    (ExpensiveRules.get_recommendation r).action = "DESHABILITAR" ∧
    (ExpensiveRules.get_recommendation r).priority = 1 := by
  have hne : ("DESHABILITAR" : String) ≠ "MONITOREAR" := by decide
  have h1' : ExpensiveRules.THRESHOLDS_critical * 1000 < r.avg_test_ms := by
    unfold ExpensiveRules.THRESHOLDS_critical; norm_num; linarith
  unfold ExpensiveRules.get_recommendation
  simp [h1', h2, h3, hne]

/-- Witness for C4 (amended) at the claim's record: `avg = 150` ms,
`fired = 0`, `tested = 600`. -/
theorem C4_never_fired_amended_witness :
    (ExpensiveRules.get_recommendation
      { name := "Regla", folder := "", id := "", avg_test_ms := 150,
        max_test_ms := 0, alltime_max_ms := 0, fired_count := 0,
        total_test_count := 600, capacity_eps := 0 }).action = "DESHABILITAR" ∧
    (ExpensiveRules.get_recommendation
      { name := "Regla", folder := "", id := "", avg_test_ms := 150,
        max_test_ms := 0, alltime_max_ms := 0, fired_count := 0,
        total_test_count := 600, capacity_eps := 0 }).priority = 1 :=
  C4_never_fired_amended _ (by norm_num) rfl (by norm_num)

/-- C5 counterexample: the CorrelationRule record with `avg = 30` ms — at or
above the domain's MEDIUM threshold (20 ms) — on which no primary or
upgrading rule fires keeps `MONITOREAR` priority 4: the final escalation of
the rules analyzer tests `avg > THRESHOLDS["high"] * 1000` (strictly above
50 ms), not `≥` the MEDIUM threshold as the claim states. -/
theorem C5_fallback_counterexample :
    ExpensiveRules.THRESHOLDS_medium * 1000 ≤ 30 ∧
    (ExpensiveRules.get_recommendation
      { name := "Regla", folder := "", id := "", avg_test_ms := 30,
        max_test_ms := 0, alltime_max_ms := 0, fired_count := 0,
        total_test_count := 100, capacity_eps := 0 }).action = "MONITOREAR" ∧
    (ExpensiveRules.get_recommendation
      { name := "Regla", folder := "", id := "", avg_test_ms := 30,
        max_test_ms := 0, alltime_max_ms := 0, fired_count := 0,
        total_test_count := 100, capacity_eps := 0 }).priority = 4 := by
  have hbb1 : ExpensiveRules.hasBB "Regla" = false := by decide
  have hbb2 : ExpensiveRules.hasBB "" = false := by decide
  unfold ExpensiveRules.get_recommendation ExpensiveRules.THRESHOLDS_critical
    ExpensiveRules.THRESHOLDS_high ExpensiveRules.THRESHOLDS_medium
  norm_num [hbb1, hbb2]

/-- C5 amended: when no primary rule and no action-upgrading supplementary
rule applies, the FieldEvaluator analyzer escalates to `REVISAR` priority 3
exactly when `avg_ns ≥ 50000` (the MEDIUM threshold, inclusive) and stays
`MONITOREAR` priority 4 below it, as the claim states; the CorrelationRule
analyzer instead escalates exactly when `avg_ms` strictly exceeds 50 ms (the
HIGH threshold), staying `MONITOREAR` priority 4 at or below 50 ms — in
particular for every cost in `[20 ms, 50 ms]` the claim's predicted
escalation does not happen. -/
theorem C5_fallback_amended :
    (∀ p : ExpensiveProperties.PropRec, p.cancelled = 0 → p.avg_ns < 200000 →
      ((50000 ≤ p.avg_ns →
        (ExpensiveProperties.get_recommendation p).action = "REVISAR" ∧
        (ExpensiveProperties.get_recommendation p).priority = 3) ∧
       (p.avg_ns < 50000 →
        (ExpensiveProperties.get_recommendation p).action = "MONITOREAR" ∧
        (ExpensiveProperties.get_recommendation p).priority = 4)))
  ∧ (∀ r : ExpensiveRules.RuleRec,
      r.avg_test_ms ≤ 100 →
      (ExpensiveRules.hasBB r.name || ExpensiveRules.hasBB r.folder) = false →
      r.total_test_count ≤ 2000 →
      ((50 < r.avg_test_ms →
        (ExpensiveRules.get_recommendation r).action = "REVISAR" ∧
        (ExpensiveRules.get_recommendation r).priority = 3) ∧
       (r.avg_test_ms ≤ 50 →
        (ExpensiveRules.get_recommendation r).action = "MONITOREAR" ∧
        (ExpensiveRules.get_recommendation r).priority = 4))) := by
  constructor
  · intro p h0 hlt
    have hnc : ¬ ((500000 : ℚ) ≤ p.avg_ns) := by push_neg; linarith
    have hnh : ¬ ((200000 : ℚ) ≤ p.avg_ns) := not_le.2 hlt
    constructor
    · intro hmed
      unfold ExpensiveProperties.get_recommendation ExpensiveProperties.THRESHOLDS_critical
        ExpensiveProperties.THRESHOLDS_high ExpensiveProperties.THRESHOLDS_medium
      simp [h0, hnc, hnh, hmed]
    · intro hbelow
      have hnm : ¬ ((50000 : ℚ) ≤ p.avg_ns) := not_le.2 hbelow
      unfold ExpensiveProperties.get_recommendation ExpensiveProperties.THRESHOLDS_critical
        ExpensiveProperties.THRESHOLDS_high ExpensiveProperties.THRESHOLDS_medium
      simp [h0, hnc, hnh, hnm]
  · intro r hle hbb htc
    have hnc : ¬ (ExpensiveRules.THRESHOLDS_critical * 1000 < r.avg_test_ms) := by
      unfold ExpensiveRules.THRESHOLDS_critical; push_neg; norm_num; linarith
    have hntc : ¬ (2000 < r.total_test_count) := not_lt.2 htc
    constructor
    · intro hgt
      have hhigh : ExpensiveRules.THRESHOLDS_high * 1000 < r.avg_test_ms := by
        unfold ExpensiveRules.THRESHOLDS_high; norm_num; linarith
      unfold ExpensiveRules.get_recommendation
      simp [hnc, hbb, hntc, hhigh]
    · intro hle50
      have hnhigh : ¬ (ExpensiveRules.THRESHOLDS_high * 1000 < r.avg_test_ms) := by
        unfold ExpensiveRules.THRESHOLDS_high; push_neg; norm_num; linarith
      unfold ExpensiveRules.get_recommendation
      simp [hnc, hbb, hntc, hnhigh]

/-- Witness for C5 (amended): a FieldEvaluator record at `avg = 60000` ns
(escalated) and a CorrelationRule record at `avg = 30` ms (not escalated). -/
theorem C5_fallback_amended_witness :
    (ExpensiveProperties.get_recommendation
      { name := "p", mbean := "", pattern := "", times_called := 10,
        cancelled := 0, avg_ns := 60000, max_ns := 0, min_ns := 0,
        source_file := "" }).action = "REVISAR" ∧
    (ExpensiveRules.get_recommendation
      { name := "Regla", folder := "", id := "", avg_test_ms := 30,
        max_test_ms := 0, alltime_max_ms := 0, fired_count := 0,
        total_test_count := 100, capacity_eps := 0 }).action = "MONITOREAR" :=
  ⟨((C5_fallback_amended.1 _ rfl (by norm_num)).1 (by norm_num)).1,
   ((C5_fallback_amended.2 _ (by norm_num) (by decide) (by norm_num)).2 (by norm_num)).1⟩

/-! ### Helpers for the ranking / filtering pipeline (C6) -/

theorem rankLeB_total (a b : ExpensiveProperties.PropRec) :
    ExpensiveProperties.rankLeB a b = true ∨ ExpensiveProperties.rankLeB b a = true := by
  unfold ExpensiveProperties.rankLeB ExpensiveProperties.rankLe
  rcases lt_trichotomy (ExpensiveProperties.keyFail a) (ExpensiveProperties.keyFail b) with h | h | h
  · left; simp [h]
  · rcases le_total b.avg_ns a.avg_ns with hq | hq
    · left; simp [h, hq]
    · right; simp [h.symm, hq]
  · right; simp [h]

theorem rankLeB_trans (a b c : ExpensiveProperties.PropRec)
    (hab : ExpensiveProperties.rankLeB a b = true)
    (hbc : ExpensiveProperties.rankLeB b c = true) :
    ExpensiveProperties.rankLeB a c = true := by
  unfold ExpensiveProperties.rankLeB ExpensiveProperties.rankLe at *
  simp only [decide_eq_true_eq] at *
  rcases hab with h1 | ⟨h1, h1'⟩ <;> rcases hbc with h2 | ⟨h2, h2'⟩
  · left; omega
  · left; omega
  · left; omega
  · right; exact ⟨h1.trans h2, h2'.trans h1'⟩

theorem keyFail_eq_zero_iff (p : ExpensiveProperties.PropRec) :
    ExpensiveProperties.keyFail p = 0 ↔ 0 < p.cancelled := by
  unfold ExpensiveProperties.keyFail
  split_ifs with h <;> simp [h]

theorem count_filter_neg {α : Type} [DecidableEq α] {p : α → Bool} {a : α}
    (h : p a = false) (l : List α) : List.count a (l.filter p) = 0 := by
  refine List.count_eq_zero.2 (fun hm => ?_)
  have := (List.mem_filter.1 hm).2
  rw [h] at this
  exact absurd this (by simp)

/-- Multiset content of the pipeline output: exactly the records at or above
the threshold plus every failure-bearing record, with input multiplicity. -/
theorem main_filter_sort_count (all_props : List ExpensiveProperties.PropRec)
    (threshold_ns : ℚ) (q : ExpensiveProperties.PropRec) :
    (ExpensiveProperties.main_filter_sort all_props threshold_ns).count q =
      if threshold_ns ≤ q.avg_ns ∨ 0 < q.cancelled then all_props.count q else 0 := by
  unfold ExpensiveProperties.main_filter_sort
  rw [(perm_stableSort ExpensiveProperties.rankLeB _).count_eq q, List.count_append]
  set fL := all_props.filter (fun p => decide (threshold_ns ≤ p.avg_ns)) with hfL
  set cL := all_props.filter
    (fun p => decide (0 < p.cancelled) && !(decide (p ∈ fL))) with hcL
  by_cases hmem : q ∈ all_props
  · by_cases hthr : threshold_ns ≤ q.avg_ns
    · have hqf : q ∈ fL := by
        rw [hfL]; exact List.mem_filter.2 ⟨hmem, by simp [hthr]⟩
      have hqft : decide (q ∈ fL) = true := decide_eq_true hqf
      have hF : fL.count q = all_props.count q := by
        rw [hfL]; exact List.count_filter (by simp [hthr])
      have hC : cL.count q = 0 := by
        rw [hcL]; exact count_filter_neg (by simp [hqft]) _
      rw [hF, hC, if_pos (Or.inl hthr), Nat.zero_add]
    · have hqf : q ∉ fL := by
        rw [hfL]
        intro h
        exact hthr (by simpa using (List.mem_filter.1 h).2)
      have hqft : decide (q ∈ fL) = false := decide_eq_false hqf
      have hF : fL.count q = 0 := by
        rw [hfL]; exact count_filter_neg (by simp [hthr]) _
      by_cases hcanc : 0 < q.cancelled
      · have hC : cL.count q = all_props.count q := by
          rw [hcL]; exact List.count_filter (by simp [hcanc, hqft])
        rw [hF, hC, if_pos (Or.inr hcanc), Nat.add_zero]
      · have hC : cL.count q = 0 := by
          rw [hcL]; exact count_filter_neg (by simp [hcanc]) _
        rw [hF, hC, if_neg (by simp [hthr, hcanc])]
  · have h0 : all_props.count q = 0 := List.count_eq_zero.2 hmem
    have hF : fL.count q = 0 := by
      have hsub := hfL ▸ (List.filter_sublist
        (p := fun (p : ExpensiveProperties.PropRec) => decide (threshold_ns ≤ p.avg_ns))
        all_props).count_le q
      omega
    have hC : cL.count q = 0 := by
      have hsub := hcL ▸ (List.filter_sublist
        (p := fun (p : ExpensiveProperties.PropRec) =>
          decide (0 < p.cancelled) && !(decide (p ∈ fL))) all_props).count_le q
      omega
    rw [hF, hC, h0]
    simp

/-- The pipeline output is sorted by the composite key: failure-bearing
records before non-failure ones, then by descending cost. -/
theorem main_filter_sort_pairwise (all_props : List ExpensiveProperties.PropRec)
    (threshold_ns : ℚ) :
    (ExpensiveProperties.main_filter_sort all_props threshold_ns).Pairwise
      ExpensiveProperties.rankLe := by
  unfold ExpensiveProperties.main_filter_sort
  have hp := pairwise_stableSort ExpensiveProperties.rankLeB rankLeB_total rankLeB_trans
    ((all_props.filter
        (fun p => decide (0 < p.cancelled) &&
          !(decide (p ∈ all_props.filter (fun p => decide (threshold_ns ≤ p.avg_ns)))))) ++
      all_props.filter (fun p => decide (threshold_ns ≤ p.avg_ns)))
  exact hp.imp (fun h => of_decide_eq_true h)

/-- Ties (equal failure flag and equal cost) appear in the output in their
original input order: filtering the output by one key class gives exactly the
input filtered to the kept members of that class. -/
theorem main_filter_sort_stable (all_props : List ExpensiveProperties.PropRec)
    (threshold_ns : ℚ) (kb : Nat) (kc : ℚ) :
    (ExpensiveProperties.main_filter_sort all_props threshold_ns).filter
        (fun p => decide (ExpensiveProperties.keyFail p = kb ∧ p.avg_ns = kc)) =
      all_props.filter
        (fun p => decide ((ExpensiveProperties.keyFail p = kb ∧ p.avg_ns = kc) ∧
          (threshold_ns ≤ p.avg_ns ∨ 0 < p.cancelled))) := by
  unfold ExpensiveProperties.main_filter_sort
  have hcls : ∀ x y : ExpensiveProperties.PropRec,
      decide (ExpensiveProperties.keyFail x = kb ∧ x.avg_ns = kc) = true →
      decide (ExpensiveProperties.keyFail y = kb ∧ y.avg_ns = kc) = true →
      ExpensiveProperties.rankLeB x y = true := by
    intro x y hx hy
    simp only [decide_eq_true_eq] at hx hy
    unfold ExpensiveProperties.rankLeB ExpensiveProperties.rankLe
    simp only [decide_eq_true_eq]
    right
    refine ⟨by rw [hx.1, hy.1], by rw [hx.2, hy.2]⟩
  rw [filter_stableSort ExpensiveProperties.rankLeB hcls, List.filter_append,
    List.filter_filter, List.filter_filter]
  rcases le_or_lt threshold_ns kc with hkc | hkc
  · have h1 : List.filter
        (fun a =>
          decide (ExpensiveProperties.keyFail a = kb ∧ a.avg_ns = kc) &&
            (decide (0 < a.cancelled) &&
              !decide (a ∈ List.filter (fun p => decide (threshold_ns ≤ p.avg_ns)) all_props)))
        all_props = [] := by
      refine List.filter_eq_nil_iff.2 (fun p hp => ?_)
      intro hcon
      simp only [Bool.and_eq_true, decide_eq_true_eq, Bool.not_eq_true',
        decide_eq_false_iff_not] at hcon
      rcases hcon with ⟨⟨hk1, hk2⟩, h3, h4⟩
      exact h4 (List.mem_filter.2 ⟨hp, by simp [hk2, hkc]⟩)
    rw [h1, List.nil_append]
    refine List.filter_congr (fun p hp => ?_)
    by_cases hk1 : ExpensiveProperties.keyFail p = kb <;>
      by_cases hk2 : p.avg_ns = kc
    · have hthr : threshold_ns ≤ p.avg_ns := by rw [hk2]; exact hkc
      simp [hk1, hk2, hthr]
      exact fun _ => hkc
    · simp [hk2]
    · simp [hk1]
    · simp [hk2]
  · have h2 : List.filter
        (fun a =>
          decide (ExpensiveProperties.keyFail a = kb ∧ a.avg_ns = kc) &&
            decide (threshold_ns ≤ a.avg_ns)) all_props = [] := by
      refine List.filter_eq_nil_iff.2 (fun p hp => ?_)
      intro hcon
      simp only [Bool.and_eq_true, decide_eq_true_eq] at hcon
      rcases hcon with ⟨⟨hk1, hk2⟩, h3⟩
      rw [hk2] at h3
      exact absurd h3 (not_le.2 hkc)
    rw [h2, List.append_nil]
    refine List.filter_congr (fun p hp => ?_)
    by_cases hk1 : ExpensiveProperties.keyFail p = kb <;>
      by_cases hk2 : p.avg_ns = kc
    · have hnthr : ¬ threshold_ns ≤ p.avg_ns := by rw [hk2]; exact not_le.2 hkc
      have hmf : (p ∈ List.filter (fun p => decide (threshold_ns ≤ p.avg_ns)) all_props) ↔
          threshold_ns ≤ p.avg_ns := by
        simp [List.mem_filter, hp]
      by_cases hcanc : 0 < p.cancelled
      · simp [hk1, hk2, hcanc, hnthr, hmf]
        exact hkc
      · simp [hk1, hk2, hcanc, hnthr]
        exact hkc

    · simp [hk2]
    · simp [hk1]
    · simp [hk2]

/-- C6: the FieldEvaluator ranking/filtering pipeline outputs exactly the
records with cost at or above the threshold plus every failure-bearing record
(with input multiplicity), ordered failure-first then by descending cost with
ties kept in original input order (stable), and on the records
`[A(cost 10, fail 0), B(cost 999, fail 1), C(cost 500, fail 0)]` with
threshold 0 it returns `[B, C, A]`. -/
theorem C6_ranking (all_props : List ExpensiveProperties.PropRec) (threshold_ns : ℚ) :
    (∀ q : ExpensiveProperties.PropRec,
      (ExpensiveProperties.main_filter_sort all_props threshold_ns).count q =
        if threshold_ns ≤ q.avg_ns ∨ 0 < q.cancelled then all_props.count q else 0)
  ∧ (ExpensiveProperties.main_filter_sort all_props threshold_ns).Pairwise
      ExpensiveProperties.rankLe
  ∧ (∀ (kb : Nat) (kc : ℚ),
      (ExpensiveProperties.main_filter_sort all_props threshold_ns).filter
          (fun p => decide (ExpensiveProperties.keyFail p = kb ∧ p.avg_ns = kc)) =
        all_props.filter
          (fun p => decide ((ExpensiveProperties.keyFail p = kb ∧ p.avg_ns = kc) ∧
            (threshold_ns ≤ p.avg_ns ∨ 0 < p.cancelled))))
  ∧ ExpensiveProperties.main_filter_sort
      [⟨"A", "", "", 0, 0, 10, 0, 0, ""⟩, ⟨"B", "", "", 0, 1, 999, 0, 0, ""⟩,
       ⟨"C", "", "", 0, 0, 500, 0, 0, ""⟩] 0 =
      [⟨"B", "", "", 0, 1, 999, 0, 0, ""⟩, ⟨"C", "", "", 0, 0, 500, 0, 0, ""⟩,
       ⟨"A", "", "", 0, 0, 10, 0, 0, ""⟩] :=
  ⟨fun q => main_filter_sort_count all_props threshold_ns q,
   main_filter_sort_pairwise all_props threshold_ns,
   fun kb kc => main_filter_sort_stable all_props threshold_ns kb kc,
   by decide⟩

end QradarSpec
